import Mathlib

/-!
Verification of the experiment/trial/metric bookkeeping workflow driven by the
repository's notebooks (linear-learner Boston-housing notebook, managed-spot
CIFAR-10 notebook, and the CIFAR-10 experiment notebook).

The in-repo artefacts embedded from source are: the metric-extraction rule set
`keras_metric_definition`, the spot-training timeout configuration
(`train_use_spot_instances` / `train_max_run` / `train_max_wait`), the
train/validation/test split expression, and the two hyperparameter sweep loops.
Operations of the external tracking SDK (experiment/trial/tracker CRUD and the
analytics query) are modelled from the specification, as noted on each
definition.
-/

/- ===================== Metric extraction (regex engine) ===================== -/

/-- Character classes occurring in the repository's metric-extraction regexes:
`.`, `[0-9\.]`, `\d`, and `[mu]`. -/
inductive CharClass where
  | anyChar
  | digitOrDot
  | digit
  | oneOf (cs : List Char)
deriving DecidableEq

def CharClass.test : CharClass → Char → Bool
  | .anyChar, _ => true
  | .digitOrDot, c => c.isDigit || c == '.'
  | .digit, c => c.isDigit
  | .oneOf cs, c => cs.contains c

/-- Abstract syntax of the (small) regex fragment used by the rule set:
literals, single-character classes, greedy `*` and `+`, concatenation, and one
capturing group. -/
inductive Regex where
  | lit (l : List Char)
  | cls (c : CharClass)
  | star (r : Regex)
  | plus (r : Regex)
  | cat (r₁ r₂ : Regex)
  | group (r : Regex)

/-- Strip a literal character sequence from the front of the input. -/
def stripLit : List Char → List Char → Option (List Char)
  | [], s => some s
  | _ :: _, [] => none
  | c :: l, a :: s => if c = a then stripLit l s else none

/-- All ways a regex can match some front part of the input, most-preferred
alternative first (greedy `*`/`+`, as in Python `re`, which is what the
platform applies to each log line).  Each result pairs the remaining suffix
with the list of captured groups, in order.  `fuel` bounds recursion depth;
`rsearch` below always supplies enough. -/
def mtch : Nat → Regex → List Char → List (List Char × List (List Char))
  | 0, _, _ => []
  | f + 1, r, s =>
    match r with
    | .lit l =>
      match stripLit l s with
      | some s' => [(s', [])]
      | none => []
    | .cls c =>
      match s with
      | [] => []
      | a :: s' => if c.test a then [(s', [])] else []
    | .star r₁ =>
      (((mtch f r₁ s).filter fun p => p.1.length < s.length).flatMap fun p =>
        (mtch f (.star r₁) p.1).map fun q => (q.1, p.2 ++ q.2)) ++ [(s, [])]
    | .plus r₁ => mtch f (.cat r₁ (.star r₁)) s
    | .cat r₁ r₂ =>
      (mtch f r₁ s).flatMap fun p =>
        (mtch f r₂ p.1).map fun q => (q.1, p.2 ++ q.2)
    | .group r₁ =>
      (mtch f r₁ s).map fun p => (p.1, s.take (s.length - p.1.length) :: p.2)

/-- Leftmost-match search, the semantics of `re.search`: try each start
position from the left, greedy alternatives first; return the captured groups
of the first match found. -/
def rsearch (r : Regex) : List Char → Option (List (List Char))
  | [] => ((mtch 64 r []).map Prod.snd).head?
  | a :: s =>
    match ((mtch (2 * (a :: s).length + 64) r (a :: s)).map Prod.snd).head? with
    | some caps => some caps
    | none => rsearch r s

/-- One Metric Rule: `{'Name': ..., 'Regex': ...}` from `keras_metric_definition`. -/
structure MetricRule where
  name : String
  re : Regex

def rlit (s : String) : Regex := .lit s.data

def rcat (rs : List Regex) : Regex := rs.foldr .cat (.lit [])

/-- `.*` -/
def dotStar : Regex := .star (.cls .anyChar)

/-- `[0-9\.]+` -/
def num : Regex := .plus (.cls .digitOrDot)

/-- `\d+` -/
def digits : Regex := .plus (.cls .digit)

/-- `{'Name': 'train:loss', 'Regex': '.*loss: ([0-9\.]+) - acc: [0-9\.]+.*'}` -/
def trainLossRule : MetricRule :=
  ⟨"train:loss", rcat [dotStar, rlit "loss: ", .group num, rlit " - acc: ", num, dotStar]⟩

/-- `{'Name': 'train:accuracy', 'Regex': '.*loss: [0-9\.]+ - acc: ([0-9\.]+).*'}` -/
def trainAccRule : MetricRule :=
  ⟨"train:accuracy", rcat [dotStar, rlit "loss: ", num, rlit " - acc: ", .group num, dotStar]⟩

/-- `{'Name': 'validation:accuracy', 'Regex':
'.*step - loss: [0-9\.]+ - acc: [0-9\.]+ - val_loss: [0-9\.]+ - val_acc: ([0-9\.]+).*'}` -/
def valAccRule : MetricRule :=
  ⟨"validation:accuracy",
    rcat [dotStar, rlit "step - loss: ", num, rlit " - acc: ", num,
      rlit " - val_loss: ", num, rlit " - val_acc: ", .group num, dotStar]⟩

/-- `{'Name': 'validation:loss', 'Regex':
'.*step - loss: [0-9\.]+ - acc: [0-9\.]+ - val_loss: ([0-9\.]+) - val_acc: [0-9\.]+.*'}` -/
def valLossRule : MetricRule :=
  ⟨"validation:loss",
    rcat [dotStar, rlit "step - loss: ", num, rlit " - acc: ", num,
      rlit " - val_loss: ", .group num, rlit " - val_acc: ", num, dotStar]⟩

/-- `{'Name': 'sec/steps', 'Regex':
'.* - \d+s (\d+)[mu]s/step - loss: [0-9\.]+ - acc: [0-9\.]+ - val_loss: [0-9\.]+ - val_acc: [0-9\.]+'}` -/
def secStepsRule : MetricRule :=
  ⟨"sec/steps",
    rcat [dotStar, rlit " - ", digits, rlit "s ", .group digits, .cls (.oneOf ['m', 'u']),
      rlit "s/step - loss: ", num, rlit " - acc: ", num,
      rlit " - val_loss: ", num, rlit " - val_acc: ", num]⟩

/-- The rule set bound to every dispatched training job (`keras_metric_definition`
in both CIFAR-10 notebooks). -/
def keras_metric_definition : List MetricRule :=
  [trainLossRule, trainAccRule, valAccRule, valLossRule, secStepsRule]

/-- Apply one rule to one log line: the first capture group of the leftmost
match, if the line matches; a non-matching line yields no observation. -/
def applyRule (r : MetricRule) (line : String) : Option String :=
  (rsearch r.re line.data).bind fun caps => caps.head?.map fun c => ⟨c⟩

/-- Modelled from the spec: "Each Metric Rule is applied per log line; a line
matching the pattern yields one observation for that metric"; every rule of the
set is applied to the line independently. -/
def applyRules (rules : List MetricRule) (line : String) : List (String × String) :=
  rules.filterMap fun r => (applyRule r line).map fun v => (r.name, v)

set_option maxRecDepth 8000

/-- A representative Keras epoch log line, containing the `loss`, `acc`,
`val_loss` and `val_acc` fields and the per-step timing field. -/
def kerasEpochLine : String :=
  " - 13s 4ms/step - loss: 1.9 - acc: 0.1 - val_loss: 1.7 - val_acc: 0.3"

/- ===================== Trial components and analytics (modelled) ===================== -/

/-- Modelled from the spec: a Trial Component record — name, display name,
parameter mapping, and per-metric ordered observation sequence (§3 data model;
the tracking SDK's implementation is not part of this repository). -/
structure TrialComponentRec where
  name : String
  display_name : String
  parameters : String → Option String
  metric_series : String → List ℚ

/-- Modelled from the spec: the `max` statistic of an observation sequence,
0 on an empty sequence (the all-zero-row convention of §4.4). -/
def maxStat : List ℚ → ℚ
  | [] => 0
  | a :: l => l.foldl (fun x y => if x ≤ y then y else x) a

/-- Modelled from the spec: the `min` statistic, 0 on an empty sequence. -/
def minStat : List ℚ → ℚ
  | [] => 0
  | a :: l => l.foldl (fun x y => if y ≤ x then y else x) a

/-- Modelled from the spec: the `count` statistic (number of observations). -/
def countStat (l : List ℚ) : ℚ := l.length

/-- Modelled from the spec: the `last` statistic; an empty sequence yields 0. -/
def lastStat (l : List ℚ) : ℚ := (l.getLast?).getD 0

/-- Modelled from the spec: the `avg` statistic, 0 on an empty sequence. -/
def avgStat (l : List ℚ) : ℚ := if l.length = 0 then 0 else l.sum / l.length

/-- Modelled from the spec: population variance of the observation sequence. -/
def varianceStat (l : List ℚ) : ℚ := avgStat (l.map fun x => (x - avgStat l) ^ 2)

/-- Modelled from the spec: stddev is the square root of the variance, hence 0
for an empty or single-element sequence. -/
noncomputable def stddevStat (l : List ℚ) : ℝ := Real.sqrt (varianceStat l)

/-- Modelled from the spec: the analytics-row statistics computed for one
requested metric of one trial component: {min, max, avg, stddev, last, count}. -/
structure AnalyticsMetricRow where
  rmin : ℚ
  rmax : ℚ
  ravg : ℚ
  rstddev : ℝ
  rlast : ℚ
  rcount : ℚ

/-- Modelled from the spec: computing the analytics row of a trial component
for one requested metric. -/
noncomputable def metricRow (tc : TrialComponentRec) (m : String) : AnalyticsMetricRow :=
  let obs := tc.metric_series m
  ⟨minStat obs, maxStat obs, avgStat obs, stddevStat obs, lastStat obs, countStat obs⟩

/-- Sort direction of an Analytics Query (`sort_order`). -/
inductive SortOrder where
  | ascending
  | descending
deriving DecidableEq

/-- The row order requested from an Analytics Query on the named column. -/
def keyOrdered {α : Type} (ord : SortOrder) (key : α → ℚ) (a b : α) : Prop :=
  match ord with
  | .ascending => key a ≤ key b
  | .descending => key b ≤ key a

instance {α : Type} (ord : SortOrder) (key : α → ℚ) : DecidableRel (keyOrdered ord key) :=
  fun a b =>
    match ord with
    | .ascending => inferInstanceAs (Decidable (key a ≤ key b))
    | .descending => inferInstanceAs (Decidable (key b ≤ key a))

instance {α : Type} (ord : SortOrder) (key : α → ℚ) : IsTotal α (keyOrdered ord key) :=
  ⟨by intro a b; cases ord <;> exact le_total _ _⟩

instance {α : Type} (ord : SortOrder) (key : α → ℚ) : IsTrans α (keyOrdered ord key) :=
  ⟨by intro a b c; cases ord
      · exact fun h1 h2 => le_trans h1 h2
      · exact fun h1 h2 => le_trans h2 h1⟩

/-- Modelled from the spec (§4.4): "Sort the resulting rows by the named column
... in the requested order; ties preserve the underlying store's retrieval
order" — a stable sort of the retrieved rows by the requested key. -/
def sortRows {α : Type} (ord : SortOrder) (key : α → ℚ) (rows : List α) : List α :=
  List.insertionSort (keyOrdered ord key) rows

/-- Modelled from the spec: the `ExperimentAnalytics` query of the experiment
notebook, restricted to what the claim is about — one row per retrieved trial
component, sorted by the max statistic of the named metric. -/
def analyticsSortByMetricMax (metric : String) (ord : SortOrder)
    (tcs : List TrialComponentRec) : List TrialComponentRec :=
  sortRows ord (fun tc => maxStat (tc.metric_series metric)) tcs

/-- A trial component whose validation:accuracy observations peak at 0.3625. -/
def tcAdam : TrialComponentRec :=
  ⟨"tc-adam", "Training", fun _ => none,
    fun m => if m = "validation:accuracy" then [0.1, 0.3625] else []⟩

/-- A trial component with no observations (max conventionally 0). -/
def tcSgd : TrialComponentRec :=
  ⟨"tc-sgd", "Training", fun _ => none, fun _ => []⟩

/-- A trial component whose validation:accuracy observations peak at 0.3247. -/
def tcRmsprop : TrialComponentRec :=
  ⟨"tc-rmsprop", "Training", fun _ => none,
    fun m => if m = "validation:accuracy" then [0.3247] else []⟩

example :
    (analyticsSortByMetricMax "validation:accuracy" .descending [tcAdam, tcSgd, tcRmsprop]).map
        (fun tc => maxStat (tc.metric_series "validation:accuracy")) =
      [0.3625, 0.3247, 0] := by
  norm_num [analyticsSortByMetricMax, sortRows, List.insertionSort, List.orderedInsert,
    keyOrdered, maxStat, tcAdam, tcSgd, tcRmsprop]

/-- Elements passed over by `orderedInsert` are strictly preferred to the
inserted one, so their key differs from the inserted element's key. -/
theorem key_ne_of_not_keyOrdered {α : Type} {ord : SortOrder} {key : α → ℚ} {a b : α}
    (h : ¬ keyOrdered ord key a b) : key b ≠ key a := by
  cases ord
  · exact fun e => h (le_of_eq e.symm)
  · exact fun e => h (le_of_eq e)

/-- Inserting an element whose key is `v` prepends it to the key-`v` filter:
every element the insertion passes over has a different key. -/
theorem filter_orderedInsert_eq_cons {α : Type} (ord : SortOrder) (key : α → ℚ) (v : ℚ)
    (a : α) (ha : key a = v) :
    ∀ l : List α,
      (List.orderedInsert (keyOrdered ord key) a l).filter (fun x => key x == v) =
        a :: l.filter (fun x => key x == v)
  | [] => by simp [List.orderedInsert, ha]
  | b :: t => by
    by_cases h : keyOrdered ord key a b
    · simp [List.orderedInsert, h, List.filter_cons, ha]
    · have hb : key b ≠ v := ha ▸ key_ne_of_not_keyOrdered h
      simp only [List.orderedInsert, if_neg h, List.filter_cons]
      rw [filter_orderedInsert_eq_cons ord key v a ha t]
      simp [hb]

/-- Inserting an element whose key is not `v` leaves the key-`v` filter
unchanged. -/
theorem filter_orderedInsert_eq {α : Type} (ord : SortOrder) (key : α → ℚ) (v : ℚ)
    (a : α) (ha : key a ≠ v) :
    ∀ l : List α,
      (List.orderedInsert (keyOrdered ord key) a l).filter (fun x => key x == v) =
        l.filter (fun x => key x == v)
  | [] => by simp [List.orderedInsert, ha]
  | b :: t => by
    by_cases h : keyOrdered ord key a b
    · simp [List.orderedInsert, h, List.filter_cons, ha]
    · simp only [List.orderedInsert, if_neg h, List.filter_cons]
      rw [filter_orderedInsert_eq ord key v a ha t]

/-- Stability of the modelled Analytics sort: rows tied on the sort key keep
the underlying retrieval order (filtering at any key value commutes with the
sort). -/
theorem filter_sortRows {α : Type} (ord : SortOrder) (key : α → ℚ) (v : ℚ) :
    ∀ rows : List α,
      (sortRows ord key rows).filter (fun x => key x == v) =
        rows.filter (fun x => key x == v)
  | [] => rfl
  | a :: t => by
    have IH := filter_sortRows ord key v t
    simp only [sortRows] at IH
    by_cases ha : key a = v
    · simp only [sortRows, List.insertionSort,
        filter_orderedInsert_eq_cons ord key v a ha, List.filter_cons, ha]
      rw [IH]
      simp
    · simp only [sortRows, List.insertionSort,
        filter_orderedInsert_eq ord key v a ha, List.filter_cons]
      rw [IH]
      simp [ha]

/-- C2: sorting the Analytics Query by the validation:accuracy max statistic in
descending order over components whose max values are {0.3625, 0.0, 0.3247}
returns the rows in the order [0.3625, 0.3247, 0.0]; in general every query's
rows are sorted by the named column in the requested order, are a permutation
of the retrieved rows, and ties keep the underlying store's retrieval order. -/
theorem C2_analytics_sort_by_max_descending :
    ((analyticsSortByMetricMax "validation:accuracy" .descending [tcAdam, tcSgd, tcRmsprop]).map
        (fun tc => maxStat (tc.metric_series "validation:accuracy")) = [0.3625, 0.3247, 0]) ∧
    ∀ (α : Type) (ord : SortOrder) (key : α → ℚ) (rows : List α),
      List.Sorted (keyOrdered ord key) (sortRows ord key rows) ∧
      List.Perm (sortRows ord key rows) rows ∧
      ∀ v : ℚ, (sortRows ord key rows).filter (fun x => key x == v) =
        rows.filter (fun x => key x == v) := by
  constructor
  · norm_num [analyticsSortByMetricMax, sortRows, List.insertionSort, List.orderedInsert,
      keyOrdered, maxStat, tcAdam, tcSgd, tcRmsprop]
  · intro α ord key rows
    exact ⟨List.sorted_insertionSort _ _, List.perm_insertionSort _ _,
      fun v => filter_sortRows ord key v rows⟩

/-- C1: for the log line "...loss: 1.9211 - acc: 0.0703..." and the train:loss
Metric Rule (pattern '.*loss: ([0-9\.]+) - acc: [0-9\.]+.*'), applying the rule
yields exactly one observation for train:loss whose extracted value is 1.9211:
the rule itself captures "1.9211", and the whole rule set produces exactly one
train:loss observation on that line, carrying that value. -/
theorem C1_train_loss_extraction :
    applyRule trainLossRule "...loss: 1.9211 - acc: 0.0703..." = some "1.9211" ∧
    (applyRules keras_metric_definition "...loss: 1.9211 - acc: 0.0703...").filter
        (fun p => p.1 == "train:loss") = [("train:loss", "1.9211")] := by
  constructor <;> decide

/-- C4: on one Keras epoch line every matching rule fires independently — the
rule set yields observations for train:loss, train:accuracy,
validation:accuracy, validation:loss and sec/steps simultaneously, each from
its own capture group — and a line matching no rule yields no observations. -/
theorem C4_multi_rule_single_line :
    applyRules keras_metric_definition kerasEpochLine =
      [("train:loss", "1.9"), ("train:accuracy", "0.1"), ("validation:accuracy", "0.3"),
        ("validation:loss", "1.7"), ("sec/steps", "4")] ∧
    applyRules keras_metric_definition "Epoch 1/10" = [] := by
  constructor <;> decide

/-- C3: a trial component whose observation sequence for a requested metric is
empty gets an analytics row with count = 0, stddev = 0 and last = 0 (not an
error), and stddev of a single-element sequence is 0 as well. -/
theorem C3_empty_series_all_zero_row (tc : TrialComponentRec) (m : String)
    (h : tc.metric_series m = []) :
    (metricRow tc m).rcount = 0 ∧ (metricRow tc m).rstddev = 0 ∧
      (metricRow tc m).rlast = 0 ∧ ∀ q : ℚ, stddevStat [q] = 0 := by
  refine ⟨?_, ?_, ?_, ?_⟩
  · simp [metricRow, h, countStat]
  · simp [metricRow, h, stddevStat, varianceStat, avgStat]
  · simp [metricRow, h, lastStat]
  · intro q
    have hv : varianceStat [q] = 0 := by
      simp [varianceStat, avgStat]
    simp [stddevStat, hv]

/-- Witness for C3 at a concrete component with no observations. -/
theorem C3_empty_series_all_zero_row_witness :
    tcSgd.metric_series "validation:accuracy" = [] ∧
    (metricRow tcSgd "validation:accuracy").rcount = 0 ∧
    (metricRow tcSgd "validation:accuracy").rstddev = 0 ∧
    (metricRow tcSgd "validation:accuracy").rlast = 0 ∧
    stddevStat [(0.5 : ℚ)] = 0 := by
  have h := C3_empty_series_all_zero_row tcSgd "validation:accuracy" rfl
  exact ⟨rfl, h.1, h.2.1, h.2.2.1, h.2.2.2 0.5⟩

/- ===================== Experiment-store operations (modelled) ===================== -/

/-- Error taxonomy of the tracking client (spec §7). -/
inductive TrackingError where
  | duplicateName
  | notFound
  | remoteService
  | configurationConflict
deriving DecidableEq

/-- Modelled from the spec: an Experiment record {name, description} (§3). -/
structure ExperimentRec where
  experiment_name : String
  description : String
deriving DecidableEq

/-- Modelled from the spec: the experiment table of the external tracking
store. -/
structure ExperimentStore where
  experiments : List ExperimentRec
deriving DecidableEq

/-- Modelled from the spec: `create_experiment(name, description)` — fails with
DuplicateNameError if the name already exists, otherwise persists the new
record; the result is returned with the (possibly updated) store. -/
def createExperiment (s : ExperimentStore) (name description : String) :
    Except TrackingError ExperimentRec × ExperimentStore :=
  if s.experiments.any fun e => e.experiment_name == name then
    (.error .duplicateName, s)
  else
    (.ok ⟨name, description⟩, ⟨s.experiments ++ [⟨name, description⟩]⟩)

/-- C5: creating an experiment under a name that already exists fails with
DuplicateNameError and leaves the store — in particular every existing
experiment record — unmodified (no state change on the error path). -/
theorem C5_create_experiment_duplicate_name (s : ExperimentStore)
    (name description : String) (e : ExperimentRec)
    (he : e ∈ s.experiments) (hn : e.experiment_name = name) :
    (createExperiment s name description).1 = .error .duplicateName ∧
    (createExperiment s name description).2 = s := by
  have h : (s.experiments.any fun e => e.experiment_name == name) = true :=
    List.any_eq_true.mpr ⟨e, he, by simp [hn]⟩
  constructor <;> simp [createExperiment, h]

/-- The experiment record created by the Boston-housing notebook. -/
def bostonExperiment : ExperimentRec :=
  ⟨"Boston-Housing-prediction-1", "prediction of house price"⟩

/-- A store already holding the Boston-housing experiment. -/
def storeWithBoston : ExperimentStore := ⟨[bostonExperiment]⟩

/-- Witness for C5: re-creating the Boston-housing experiment fails and the
store is unchanged. -/
theorem C5_create_experiment_duplicate_name_witness :
    bostonExperiment ∈ storeWithBoston.experiments ∧
    bostonExperiment.experiment_name = "Boston-Housing-prediction-1" ∧
    (createExperiment storeWithBoston "Boston-Housing-prediction-1" "again").1 =
      .error .duplicateName ∧
    (createExperiment storeWithBoston "Boston-Housing-prediction-1" "again").2 =
      storeWithBoston := by
  have h := C5_create_experiment_duplicate_name storeWithBoston
    "Boston-Housing-prediction-1" "again" bostonExperiment (by simp [storeWithBoston]) rfl
  exact ⟨by simp [storeWithBoston], rfl, h.1, h.2⟩

/-- Modelled from the spec: a Trial record owning an ordered list of attached
trial-component names (insertion order = attachment order, §3). -/
structure TrialRec where
  trial_name : String
  experiment_name : String
  trial_components : List String
deriving DecidableEq

/-- Modelled from the spec: `add_trial_component` / `attach_to_trial` — a
many-to-many association; attaching an already attached component changes
nothing. -/
def addTrialComponent (t : TrialRec) (c : String) : TrialRec :=
  if t.trial_components.contains c then t
  else { t with trial_components := t.trial_components ++ [c] }

/-- After attaching a component it is associated with the trial. -/
theorem mem_addTrialComponent (t : TrialRec) (c : String) :
    c ∈ (addTrialComponent t c).trial_components := by
  unfold addTrialComponent
  by_cases h : t.trial_components.contains c
  · rw [if_pos h]
    exact List.elem_iff.mp h
  · rw [if_neg h]
    simp

/-- C6: attaching the same trial component to a trial twice produces exactly
the association set of attaching it once (idempotence), while the same
component may simultaneously be associated with two distinct trials
(many-to-many). -/
theorem C6_attach_idempotent_many_to_many :
    (∀ (t : TrialRec) (c : String),
      addTrialComponent (addTrialComponent t c) c = addTrialComponent t c) ∧
    ∀ (t₁ t₂ : TrialRec) (c : String), t₁.trial_name ≠ t₂.trial_name →
      c ∈ (addTrialComponent t₁ c).trial_components ∧
      c ∈ (addTrialComponent t₂ c).trial_components := by
  constructor
  · intro t c
    by_cases h0 : t.trial_components.contains c
    · have e : addTrialComponent t c = t := by
        simp only [addTrialComponent]
        rw [if_pos h0]
      rw [e]
      exact e
    · have e : addTrialComponent t c =
          { t with trial_components := t.trial_components ++ [c] } := by
        simp only [addTrialComponent]
        rw [if_neg h0]
      rw [e]
      have h1 : (t.trial_components ++ [c]).contains c = true :=
        List.elem_iff.mpr (by simp)
      simp only [addTrialComponent]
      rw [if_pos h1]
  · intro t₁ t₂ c _
    exact ⟨mem_addTrialComponent t₁ c, mem_addTrialComponent t₂ c⟩

/-- A trial of the CIFAR-10 experiment (adam sweep iteration). -/
def trialAdam : TrialRec :=
  ⟨"cifar10-training-job-with-adam-optimization-1", "cifar10-image-classification-1", []⟩

/-- A distinct trial of the CIFAR-10 experiment (sgd sweep iteration). -/
def trialSgd : TrialRec :=
  ⟨"cifar10-training-job-with-sgd-optimization-1", "cifar10-image-classification-1", []⟩

/-- Witness for C6: double attachment of the preprocessing component equals a
single attachment, and the component ends up attached to two distinct trials. -/
theorem C6_attach_idempotent_many_to_many_witness :
    addTrialComponent (addTrialComponent trialAdam "Preprocessing") "Preprocessing" =
      addTrialComponent trialAdam "Preprocessing" ∧
    trialAdam.trial_name ≠ trialSgd.trial_name ∧
    "Preprocessing" ∈ (addTrialComponent trialAdam "Preprocessing").trial_components ∧
    "Preprocessing" ∈ (addTrialComponent trialSgd "Preprocessing").trial_components := by
  have h := C6_attach_idempotent_many_to_many
  have h2 := h.2 trialAdam trialSgd "Preprocessing" (by decide)
  exact ⟨h.1 trialAdam "Preprocessing", by decide, h2.1, h2.2⟩

/-- Modelled from the spec: the parameter set of a tracker's trial component;
`log_parameters(mapping)` merges the mapping's keys into it, last write
winning per key. -/
structure TrackerParams where
  parameters : String → Option String

/-- Modelled from the spec: `tracker.log_parameters` (merge, not replace). -/
def log_parameters (tr : TrackerParams) (m : List (String × String)) : TrackerParams :=
  ⟨fun k =>
    match m.lookup k with
    | some v => some v
    | none => tr.parameters k⟩

/-- C7: over two successive `log_parameters` calls, a key present in the
second mapping ends with the second call's value (last write wins), a key
present only in the first mapping keeps the first call's value, and a key in
neither mapping is untouched (merge, not replace). -/
theorem C7_log_parameters_last_write_wins (tr : TrackerParams)
    (m₁ m₂ : List (String × String)) (k : String) :
    (∀ v₂, m₂.lookup k = some v₂ →
      (log_parameters (log_parameters tr m₁) m₂).parameters k = some v₂) ∧
    (m₂.lookup k = none → ∀ v₁, m₁.lookup k = some v₁ →
      (log_parameters (log_parameters tr m₁) m₂).parameters k = some v₁) ∧
    (m₂.lookup k = none → m₁.lookup k = none →
      (log_parameters (log_parameters tr m₁) m₂).parameters k = tr.parameters k) := by
  refine ⟨?_, ?_, ?_⟩
  · intro v₂ h₂
    simp [log_parameters, h₂]
  · intro h₂ v₁ h₁
    simp [log_parameters, h₂, h₁]
  · intro h₂ h₁
    simp [log_parameters, h₂, h₁]

/-- The parameter mapping logged by the preprocessing tracker (cell 12 of the
experiment notebook). -/
def preprocessingParams : List (String × String) :=
  [("datatype", "tfrecords"), ("image_size", "32")]

/-- A fresh tracker component with no parameters logged yet. -/
def trackerBlank : TrackerParams := ⟨fun _ => none⟩

/-- Witness for C7: logging {datatype, image_size} then {image_size ↦ 64}
overwrites image_size, keeps datatype, and leaves unknown keys absent. -/
theorem C7_log_parameters_last_write_wins_witness :
    ([("image_size", "64")].lookup "image_size" = some "64" ∧
      (log_parameters (log_parameters trackerBlank preprocessingParams)
          [("image_size", "64")]).parameters "image_size" = some "64") ∧
    ([("image_size", "64")].lookup "datatype" = none ∧
      preprocessingParams.lookup "datatype" = some "tfrecords" ∧
      (log_parameters (log_parameters trackerBlank preprocessingParams)
          [("image_size", "64")]).parameters "datatype" = some "tfrecords") ∧
    ([("image_size", "64")].lookup "epochs" = none ∧
      preprocessingParams.lookup "epochs" = none ∧
      (log_parameters (log_parameters trackerBlank preprocessingParams)
          [("image_size", "64")]).parameters "epochs" = trackerBlank.parameters "epochs") := by
  have h := C7_log_parameters_last_write_wins trackerBlank preprocessingParams
    [("image_size", "64")]
  exact ⟨⟨by decide, (h "image_size").1 "64" (by decide)⟩,
    ⟨by decide, by decide, (h "datatype").2.1 (by decide) "tfrecords" (by decide)⟩,
    ⟨by decide, by decide, (h "epochs").2.2 (by decide) (by decide)⟩⟩

/- ===================== Spot-training configuration (source + modelled) ===================== -/

/-- The timeout/spot configuration of a training job as built by the managed-spot
notebook (`use_spot_instances`, `max_run`, `max_wait` constructor args). -/
structure EstimatorConfig where
  use_spot_instances : Bool
  max_run : Nat
  max_wait : Option Nat
deriving DecidableEq

/-- `train_use_spot_instances = True` (managed-spot notebook). -/
def train_use_spot_instances : Bool := true

/-- `train_max_run = 3600` (managed-spot notebook). -/
def train_max_run : Nat := 3600

/-- `train_max_wait = 7200 if train_use_spot_instances else None`
(managed-spot notebook). -/
def train_max_wait : Option Nat :=
  if train_use_spot_instances then some 7200 else none

/-- The spot estimator's timeout configuration as constructed in the
managed-spot notebook. -/
def spotEstimatorConfig : EstimatorConfig :=
  ⟨train_use_spot_instances, train_max_run, train_max_wait⟩

/-- Modelled from the spec: the platform-side configuration check —
"`ConfigurationConflictError` (e.g., a wait-time configured without enabling
the feature it modifies)"; a `max_wait` value is only legal when
`use_spot_instances` is enabled. -/
def validateJobConfig (c : EstimatorConfig) : Except TrackingError Unit :=
  match c.max_wait, c.use_spot_instances with
  | some _, false => .error .configurationConflict
  | _, _ => .ok ()

/-- Modelled from the spec: the request sent to the external platform —
"timeout semantics ... are configuration values passed opaquely to the
external platform, not enforced by this code". -/
structure PlatformRequest where
  use_spot_instances : Bool
  max_run : Nat
  max_wait : Option Nat
deriving DecidableEq

/-- The dispatch step copies the timeout values verbatim into the request. -/
def toPlatformRequest (c : EstimatorConfig) : PlatformRequest :=
  ⟨c.use_spot_instances, c.max_run, c.max_wait⟩

/-- C8: configuring a spot wait-time without enabling spot instances fails
with ConfigurationConflictError; with spot instances enabled a `max_wait` may
accompany `max_run`, the values being passed through to the external platform
verbatim rather than enforced here — as the notebook's own configuration
(`use_spot_instances = True`, `max_run = 3600`, `max_wait = 7200`) does. -/
theorem C8_max_wait_requires_spot (c : EstimatorConfig) :
    (∀ w, c.max_wait = some w → c.use_spot_instances = false →
      validateJobConfig c = .error .configurationConflict) ∧
    (c.use_spot_instances = true →
      validateJobConfig c = .ok () ∧
      (toPlatformRequest c).max_wait = c.max_wait ∧
      (toPlatformRequest c).max_run = c.max_run) ∧
    validateJobConfig spotEstimatorConfig = .ok () ∧
    spotEstimatorConfig.max_wait = some 7200 ∧
    spotEstimatorConfig.max_run = 3600 := by
  refine ⟨?_, ?_, rfl, rfl, rfl⟩
  · intro w hw hs
    simp [validateJobConfig, hw, hs]
  · intro hs
    refine ⟨?_, rfl, rfl⟩
    cases hmw : c.max_wait <;> simp [validateJobConfig, hmw, hs]

/-- Witness for C8: a wait-time without spot instances is rejected; the
notebook's spot configuration is accepted and passed through verbatim. -/
theorem C8_max_wait_requires_spot_witness :
    validateJobConfig ⟨false, 3600, some 7200⟩ = .error .configurationConflict ∧
    validateJobConfig spotEstimatorConfig = .ok () ∧
    (toPlatformRequest spotEstimatorConfig).max_wait = spotEstimatorConfig.max_wait ∧
    (toPlatformRequest spotEstimatorConfig).max_run = spotEstimatorConfig.max_run := by
  have h1 := (C8_max_wait_requires_spot ⟨false, 3600, some 7200⟩).1 7200 rfl rfl
  have h2 := (C8_max_wait_requires_spot spotEstimatorConfig).2.1 (by decide)
  exact ⟨h1, h2.1, h2.2.1, h2.2.2⟩

/- ===================== Train/validation/test split ===================== -/

/-- A deterministic key stream standing in for the seeded random order used by
`sample(frac=1, random_state=seed)` (the sampler lives in pandas/numpy, not in
this repository; what the source fixes is that the row order depends only on
the constant seed). -/
def seededKey (seed i : Nat) : Nat :=
  (6364136223846793005 * (seed + i) + 1442695040888963407) % 18446744073709551616

/-- Modelled from the spec/source: `model_data.sample(frac=1, random_state=seed)`
— a permutation of the rows determined entirely by the seed. -/
def pandasSample {α : Type} (seed : Nat) (rows : List α) : List α :=
  (List.insertionSort (fun a b => seededKey seed a.1 ≤ seededKey seed b.1) rows.enum).map
    Prod.snd

/-- The seeded shuffle returns a permutation of its input. -/
theorem pandasSample_perm {α : Type} (seed : Nat) (rows : List α) :
    List.Perm (pandasSample seed rows) rows := by
  have h :=
    (List.perm_insertionSort
      (fun a b : Nat × α => seededKey seed a.1 ≤ seededKey seed b.1) rows.enum).map Prod.snd
  rw [List.enum_map_snd] at h
  exact h

/-- `np.split(df, [i, j])`: the three consecutive row frames `df[0:i]`,
`df[i:j]` and `df[j:]`. -/
def npSplit3 {α : Type} (rows : List α) (i j : Nat) : List α × List α × List α :=
  (rows.take i, (rows.drop i).take (j - i), rows.drop j)

/-- IEEE-754 binary64 significand rounding, embedding the arithmetic the
source's split expression performs in Python floats: round the integer `N` to
53 significant bits, round-to-nearest ties-to-even.  Applied to the numerator
of a dyadic rational it is exactly binary64 rounding of that value (normal
range). -/
def fl53 (N : Nat) : Nat :=
  if N.log2 + 1 ≤ 53 then N
  else if 2 ^ (N.log2 - 53) < N % 2 ^ (N.log2 - 52)
      ∨ (N % 2 ^ (N.log2 - 52) = 2 ^ (N.log2 - 53)
          ∧ (N / 2 ^ (N.log2 - 52)) % 2 = 1) then
    (N / 2 ^ (N.log2 - 52) + 1) * 2 ^ (N.log2 - 52)
  else (N / 2 ^ (N.log2 - 52)) * 2 ^ (N.log2 - 52)

/-- The binary64 value of the Python literal `0.7`, as numerator over 2^53. -/
def float07 : Nat := 6305039478318694

/-- The binary64 value of the Python literal `0.9`, as numerator over 2^53. -/
def float09 : Nat := 8106479329266893

/-- `int(c * n)` as Python evaluates it for a float literal `c = cnum / 2^53`
and a nonnegative int `n`: convert `n` to binary64 (`fl53 n`), multiply in
binary64 (round the exact product's numerator), truncate toward zero.
Faithful to the source below the binary64 overflow threshold, where Python
raises OverflowError instead of returning a value. -/
def pyCut (cnum n : Nat) : Nat := fl53 (cnum * fl53 n) / 2 ^ 53

theorem pyCut_eq (cnum n : Nat) : pyCut cnum n = fl53 (cnum * fl53 n) / 2 ^ 53 := rfl

example : pyCut float07 90 = 62 := by
  have hl1 : Nat.log2 90 = 6 := by
    rw [Nat.log2_eq_log_two]
    exact Nat.log_eq_of_pow_le_of_lt_pow (by norm_num) (by norm_num)
  have hl2 : Nat.log2 567453553048682460 = 58 := by
    rw [Nat.log2_eq_log_two]
    exact Nat.log_eq_of_pow_le_of_lt_pow (by norm_num) (by norm_num)
  have e1 : fl53 90 = 90 := by
    norm_num [fl53, hl1]
  have e2 : float07 * 90 = 567453553048682460 := by norm_num [float07]
  have e3 : fl53 567453553048682460 = 567453553048682432 := by
    norm_num [fl53, hl2]
  rw [pyCut_eq, e1, e2, e3]
  norm_num

example : pyCut float07 506 = 354 ∧ pyCut float09 506 = 455 := by
  have hl0 : Nat.log2 506 = 8 := by
    rw [Nat.log2_eq_log_two]
    exact Nat.log_eq_of_pow_le_of_lt_pow (by norm_num) (by norm_num)
  have e0 : fl53 506 = 506 := by
    norm_num [fl53, hl0]
  constructor
  · have hl : Nat.log2 3190349976029259164 = 61 := by
      rw [Nat.log2_eq_log_two]
      exact Nat.log_eq_of_pow_le_of_lt_pow (by norm_num) (by norm_num)
    have e1 : float07 * 506 = 3190349976029259164 := by norm_num [float07]
    have e2 : fl53 3190349976029259164 = 3190349976029259264 := by
      norm_num [fl53, hl]
    rw [pyCut_eq, e0, e1, e2]
    norm_num
  · have hl : Nat.log2 4101878540609047858 = 61 := by
      rw [Nat.log2_eq_log_two]
      exact Nat.log_eq_of_pow_le_of_lt_pow (by norm_num) (by norm_num)
    have e1 : float09 * 506 = 4101878540609047858 := by norm_num [float09]
    have e2 : fl53 4101878540609047858 = 4101878540609048064 := by
      norm_num [fl53, hl]
    rw [pyCut_eq, e0, e1, e2]
    norm_num

/-- Rounding to 53 bits moves the value up by at most half an ulp, which is at
most `N / 2^53` in relative terms. -/
theorem fl53_le (N : Nat) : 2 ^ 53 * fl53 N ≤ 2 ^ 53 * N + N := by
  unfold fl53
  split
  · exact Nat.le_add_right _ _
  · rename_i hL
    have hlog : 53 ≤ N.log2 := by omega
    have hN0 : N ≠ 0 := by
      intro h
      rw [h] at hlog
      simp [Nat.log2] at hlog
    have hself : 2 ^ N.log2 ≤ N := Nat.log2_self_le hN0
    have hhalf : 2 ^ (N.log2 - 53) * 2 ^ 53 ≤ N := by
      rw [← pow_add]
      have he : N.log2 - 53 + 53 = N.log2 := by omega
      rw [he]
      exact hself
    have hdm : 2 ^ (N.log2 - 52) * (N / 2 ^ (N.log2 - 52)) + N % 2 ^ (N.log2 - 52) = N :=
      Nat.div_add_mod N _
    have hBA : 2 ^ (N.log2 - 52) = 2 ^ (N.log2 - 53) + 2 ^ (N.log2 - 53) := by
      have he : N.log2 - 52 = (N.log2 - 53) + 1 := by omega
      rw [he, pow_succ]
      ring
    split
    · rename_i hcond
      have hAr : 2 ^ (N.log2 - 53) ≤ N % 2 ^ (N.log2 - 52) := by
        rcases hcond with h | h
        · exact le_of_lt h
        · exact le_of_eq h.1.symm
      set B := 2 ^ (N.log2 - 52) with hB
      set A := 2 ^ (N.log2 - 53) with hA
      set q := N / B with hq
      set r := N % B with hr
      have e1 : 2 ^ 53 * ((q + 1) * B) = 2 ^ 53 * (B * q) + (2 ^ 53 * A + 2 ^ 53 * A) := by
        rw [hBA]
        ring
      have e2 : 2 ^ 53 * (B * q) + 2 ^ 53 * r = 2 ^ 53 * N := by
        rw [← hdm]
        ring
      have g1 : 2 ^ 53 * A ≤ 2 ^ 53 * r := Nat.mul_le_mul_left _ hAr
      have g2 : 2 ^ 53 * A ≤ N := by
        rw [Nat.mul_comm]
        exact hhalf
      calc 2 ^ 53 * ((q + 1) * B)
          = 2 ^ 53 * (B * q) + (2 ^ 53 * A + 2 ^ 53 * A) := e1
        _ ≤ 2 ^ 53 * (B * q) + (2 ^ 53 * r + N) :=
            Nat.add_le_add_left (Nat.add_le_add g1 g2) _
        _ = (2 ^ 53 * (B * q) + 2 ^ 53 * r) + N := by ring
        _ = 2 ^ 53 * N + N := by rw [e2]
    · rename_i hcond
      have hqB : N / 2 ^ (N.log2 - 52) * 2 ^ (N.log2 - 52) ≤ N := Nat.div_mul_le_self _ _
      calc 2 ^ 53 * (N / 2 ^ (N.log2 - 52) * 2 ^ (N.log2 - 52))
          ≤ 2 ^ 53 * N := Nat.mul_le_mul_left _ hqB
        _ ≤ 2 ^ 53 * N + N := Nat.le_add_right _ _

/-- Rounding to 53 bits moves the value down by at most half an ulp. -/
theorem le_fl53 (N : Nat) : 2 ^ 53 * N ≤ 2 ^ 53 * fl53 N + N := by
  unfold fl53
  split
  · exact Nat.le_add_right _ _
  · rename_i hL
    have hlog : 53 ≤ N.log2 := by omega
    have hN0 : N ≠ 0 := by
      intro h
      rw [h] at hlog
      simp [Nat.log2] at hlog
    have hself : 2 ^ N.log2 ≤ N := Nat.log2_self_le hN0
    have hhalf : 2 ^ (N.log2 - 53) * 2 ^ 53 ≤ N := by
      rw [← pow_add]
      have he : N.log2 - 53 + 53 = N.log2 := by omega
      rw [he]
      exact hself
    have hdm : 2 ^ (N.log2 - 52) * (N / 2 ^ (N.log2 - 52)) + N % 2 ^ (N.log2 - 52) = N :=
      Nat.div_add_mod N _
    have hrlt : N % 2 ^ (N.log2 - 52) < 2 ^ (N.log2 - 52) := Nat.mod_lt _ (by positivity)
    split
    · rename_i hcond
      set B := 2 ^ (N.log2 - 52) with hB
      set q := N / B with hq
      set r := N % B with hr
      have hN : N ≤ (q + 1) * B := by
        calc N = B * q + r := hdm.symm
          _ ≤ B * q + B := Nat.add_le_add_left (le_of_lt hrlt) _
          _ = (q + 1) * B := by ring
      calc 2 ^ 53 * N ≤ 2 ^ 53 * ((q + 1) * B) := Nat.mul_le_mul_left _ hN
        _ ≤ 2 ^ 53 * ((q + 1) * B) + N := Nat.le_add_right _ _
    · rename_i hcond
      have hrA : N % 2 ^ (N.log2 - 52) ≤ 2 ^ (N.log2 - 53) :=
        le_of_not_lt fun hh => hcond (Or.inl hh)
      set B := 2 ^ (N.log2 - 52) with hB
      set A := 2 ^ (N.log2 - 53) with hA
      set q := N / B with hq
      set r := N % B with hr
      have e2 : 2 ^ 53 * (B * q) + 2 ^ 53 * r = 2 ^ 53 * N := by
        rw [← hdm]
        ring
      have g : 2 ^ 53 * r ≤ N := by
        calc 2 ^ 53 * r ≤ 2 ^ 53 * A := Nat.mul_le_mul_left _ hrA
          _ = A * 2 ^ 53 := Nat.mul_comm _ _
          _ ≤ N := hhalf
      calc 2 ^ 53 * N = 2 ^ 53 * (B * q) + 2 ^ 53 * r := e2.symm
        _ ≤ 2 ^ 53 * (B * q) + N := Nat.add_le_add_left g _
        _ = 2 ^ 53 * (q * B) + N := by ring

/-- The upper cut never exceeds the row count: `int(0.9 * n) ≤ n`, because even
with both roundings the result stays strictly below n·2^53 / 2^53. -/
theorem pyCut09_le (n : Nat) : pyCut float09 n ≤ n := by
  rcases Nat.eq_zero_or_pos n with rfl | hn
  · have h0 : Nat.log2 0 = 0 := by simp [Nat.log2]
    have z : fl53 0 = 0 := by norm_num [fl53, h0]
    rw [pyCut_eq, z, Nat.mul_zero, z]
    norm_num
  · rw [pyCut_eq]
    set a := fl53 n with ha
    set M := float09 * a with hM
    have h1 := fl53_le M
    have h2 := fl53_le n
    have hA : 2 ^ 53 * a ≤ (2 ^ 53 + 1) * n := by
      calc 2 ^ 53 * a ≤ 2 ^ 53 * n + n := h2
        _ = (2 ^ 53 + 1) * n := by ring
    have hB : 2 ^ 53 * fl53 M ≤ (2 ^ 53 + 1) * M := by
      calc 2 ^ 53 * fl53 M ≤ 2 ^ 53 * M + M := h1
        _ = (2 ^ 53 + 1) * M := by ring
    have hK : (2 ^ 53 + 1) ^ 2 * float09 < 2 ^ 159 := by norm_num [float09]
    have hC : 2 ^ 106 * fl53 M ≤ (2 ^ 53 + 1) ^ 2 * float09 * n := by
      calc 2 ^ 106 * fl53 M = 2 ^ 53 * (2 ^ 53 * fl53 M) := by ring
        _ ≤ 2 ^ 53 * ((2 ^ 53 + 1) * M) := Nat.mul_le_mul_left _ hB
        _ = (2 ^ 53 + 1) * float09 * (2 ^ 53 * a) := by rw [hM]; ring
        _ ≤ (2 ^ 53 + 1) * float09 * ((2 ^ 53 + 1) * n) := Nat.mul_le_mul_left _ hA
        _ = (2 ^ 53 + 1) ^ 2 * float09 * n := by ring
    have hD : 2 ^ 106 * fl53 M < 2 ^ 106 * (n * 2 ^ 53) := by
      calc 2 ^ 106 * fl53 M ≤ (2 ^ 53 + 1) ^ 2 * float09 * n := hC
        _ < 2 ^ 159 * n := mul_lt_mul_of_pos_right hK hn
        _ = 2 ^ 106 * (n * 2 ^ 53) := by ring
    have hE : fl53 M < n * 2 ^ 53 := lt_of_mul_lt_mul_left hD (Nat.zero_le _)
    exact le_of_lt ((Nat.div_lt_iff_lt_mul (by positivity)).mpr hE)

/-- The lower cut never exceeds the upper cut: `int(0.7*n) ≤ int(0.9*n)`, since
0.7 rounded up by half an ulp stays below 0.9 rounded down by half an ulp. -/
theorem pyCut07_le_pyCut09 (n : Nat) : pyCut float07 n ≤ pyCut float09 n := by
  rw [pyCut_eq, pyCut_eq]
  apply Nat.div_le_div_right
  set a := fl53 n with ha
  have h7 := fl53_le (float07 * a)
  have h9 := le_fl53 (float09 * a)
  have hcoef : (2 ^ 53 + 1) * float07 + float09 ≤ 2 ^ 53 * float09 := by
    norm_num [float07, float09]
  have hmid : (2 ^ 53 + 1) * (float07 * a) + float09 * a ≤ 2 ^ 53 * (float09 * a) := by
    calc (2 ^ 53 + 1) * (float07 * a) + float09 * a
        = ((2 ^ 53 + 1) * float07 + float09) * a := by ring
      _ ≤ 2 ^ 53 * float09 * a := Nat.mul_le_mul_right _ hcoef
      _ = 2 ^ 53 * (float09 * a) := by ring
  have step1 : 2 ^ 53 * fl53 (float07 * a) ≤ (2 ^ 53 + 1) * (float07 * a) := by
    calc 2 ^ 53 * fl53 (float07 * a) ≤ 2 ^ 53 * (float07 * a) + float07 * a := h7
      _ = (2 ^ 53 + 1) * (float07 * a) := by ring
  have step2 : (2 ^ 53 + 1) * (float07 * a) + float09 * a ≤
      2 ^ 53 * fl53 (float09 * a) + float09 * a :=
    le_trans hmid h9
  have step3 : (2 ^ 53 + 1) * (float07 * a) ≤ 2 ^ 53 * fl53 (float09 * a) :=
    Nat.le_of_add_le_add_right step2
  exact Nat.le_of_mul_le_mul_left (le_trans step1 step3) (by positivity)

/-- The Boston-housing notebook's split: shuffle with the fixed seed 1729, then
cut at `int(0.7 * len(model_data))` and `int(0.9 * len(model_data))`, both
evaluated in binary64 arithmetic exactly as Python does. -/
def trainValTestSplit {α : Type} (rows : List α) : List α × List α × List α :=
  npSplit3 (pandasSample 1729 rows) (pyCut float07 rows.length) (pyCut float09 rows.length)

/-- C9: for an input of n rows the split is a deterministic function of the
data alone (seed fixed at 1729); it cuts the shuffled rows at `int(0.7*n)` and
`int(0.9*n)` as the source's floating-point arithmetic computes them, so the
three frames have sizes `int(0.7*n)`, `int(0.9*n) − int(0.7*n)` and
`n − int(0.9*n)`, and together they are a permutation of the input rows —
every row lands in exactly one frame. -/
theorem C9_split_sizes_partition {α : Type} (rows : List α) :
    (trainValTestSplit rows).1.length = pyCut float07 rows.length ∧
    (trainValTestSplit rows).2.1.length =
      pyCut float09 rows.length - pyCut float07 rows.length ∧
    (trainValTestSplit rows).2.2.length = rows.length - pyCut float09 rows.length ∧
    List.Perm
      ((trainValTestSplit rows).1 ++ (trainValTestSplit rows).2.1 ++ (trainValTestSplit rows).2.2)
      rows := by
  have hperm := pandasSample_perm 1729 rows
  have hm : (pandasSample 1729 rows).length = rows.length := hperm.length_eq
  have hij := pyCut07_le_pyCut09 rows.length
  have hjn := pyCut09_le rows.length
  refine ⟨?_, ?_, ?_, ?_⟩
  · simp only [trainValTestSplit, npSplit3, List.length_take, hm]
    exact min_eq_left (by omega)
  · simp only [trainValTestSplit, npSplit3, List.length_take, List.length_drop, hm]
    exact min_eq_left (by omega)
  · simp only [trainValTestSplit, npSplit3, List.length_drop, hm]
  · simp only [trainValTestSplit, npSplit3]
    have hdj : (pandasSample 1729 rows).drop (pyCut float09 rows.length) =
        ((pandasSample 1729 rows).drop (pyCut float07 rows.length)).drop
          (pyCut float09 rows.length - pyCut float07 rows.length) := by
      rw [List.drop_drop]
      congr 1
      omega
    have key :
        (pandasSample 1729 rows).take (pyCut float07 rows.length) ++
            ((pandasSample 1729 rows).drop (pyCut float07 rows.length)).take
              (pyCut float09 rows.length - pyCut float07 rows.length) ++
            (pandasSample 1729 rows).drop (pyCut float09 rows.length) =
          pandasSample 1729 rows := by
      rw [List.append_assoc, hdj, List.take_append_drop, List.take_append_drop]
    rw [key]
    exact hperm

/- ===================== Hyperparameter sweep loops ===================== -/

/-- Python's `loss_function.replace("_", "-")` (single-character pattern). -/
def dashify (s : String) : String := ⟨s.data.map fun c => if c = '_' then '-' else c⟩

/-- The swept loss functions of the linear-learner notebook. -/
def lossFunctions : List String := ["squared_loss", "absolute_loss", "huber_loss"]

/-- The swept optimizers of the CIFAR-10 experiment notebook. -/
def optMethods : List String := ["adam", "sgd", "rmsprop"]

/-- `f"boston-house-training-job-with-{fn_name}-loss-function-{int(time.time())}"`. -/
def llTrialName (lossFn : String) (t : Nat) : String :=
  "boston-house-training-job-with-" ++ dashify lossFn ++ "-loss-function-" ++ toString t

/-- `f"cifar10-training-job-with-{opt_method}-optimization-{int(time.time())}"`. -/
def cifarTrialName (opt : String) (t : Nat) : String :=
  "cifar10-training-job-with-" ++ opt ++ "-optimization-" ++ toString t

/-- `"cifar-training-job-{}".format(int(time.time()))`. -/
def cifarJobName (t : Nat) : String := "cifar-training-job-" ++ toString t

/-- The linear-learner image reference, retrieved once before the loop
(`image_uris.retrieve('linear-learner', ...)`, an external lookup whose result
is constant during the sweep). -/
def container : String := "linear-learner"

/-- `'s3://{}/{}/output'.format(bucket, prefix)` with the notebook's fixed
prefix `sagemaker/LL`. -/
def llOutputPath (bucket : String) : String :=
  "s3://" ++ bucket ++ "/sagemaker/LL/output"

/-- One dispatched linear-learner job configuration: estimator constructor
arguments, hyperparameters, and the experiment_config of the `fit` call. -/
structure LLJob where
  image : String
  instance_count : Nat
  instance_type : String
  output_path : String
  feature_dim : Nat
  predictor_type : String
  mini_batch_size : Nat
  loss : String
  trial_name : String
  trial_component_display_name : String
deriving DecidableEq

/-- The job configuration dispatched by iteration of the loss-function sweep
that sweeps `lossFn`, at timestamp `t`. -/
def llJob (bucket lossFn : String) (t : Nat) : LLJob :=
  ⟨container, 1, "ml.m4.xlarge", llOutputPath bucket, 13, "regressor", 100, lossFn,
    llTrialName lossFn t, "Training"⟩

/-- One iteration of the loss-function sweep: the name-map entry, the freshly
created Trial (modelled from the spec: `Trial.create` persists a record named
as requested under the experiment), and the dispatched job. -/
def llIteration (expName bucket : String) (clock : Nat → Nat) (i : Nat) (lossFn : String) :
    (String × String) × TrialRec × LLJob :=
  ((lossFn, llTrialName lossFn (clock i)),
    ⟨llTrialName lossFn (clock i), expName, []⟩,
    llJob bucket lossFn (clock i))

/-- The whole loss-function sweep loop of the Boston-housing notebook.
`clock i` is the value `int(time.time())` reads at iteration `i`. -/
def llSweep (expName bucket : String) (clock : Nat → Nat) :
    List ((String × String) × TrialRec × LLJob) :=
  lossFunctions.enum.map fun p => llIteration expName bucket clock p.1 p.2

/-- `loss_function_trial_name_map` after the sweep. -/
def loss_function_trial_name_map (expName bucket : String) (clock : Nat → Nat) :
    List (String × String) :=
  (llSweep expName bucket clock).map fun e => e.1

/-- The trials created by the sweep, in creation order. -/
def llCreatedTrials (expName bucket : String) (clock : Nat → Nat) : List TrialRec :=
  (llSweep expName bucket clock).map fun e => e.2.1

/-- The job configurations dispatched by the sweep, in dispatch order. -/
def llDispatchedJobs (expName bucket : String) (clock : Nat → Nat) : List LLJob :=
  (llSweep expName bucket clock).map fun e => e.2.2

/-- One dispatched CIFAR-10 job configuration: TensorFlow estimator
constructor arguments, hyperparameters, metric rule set, and the `fit` call's
job name and experiment_config. -/
structure CifarJob where
  base_job_name : String
  entry_point : String
  source_dir : String
  framework_version : String
  py_version : String
  epochs : Nat
  batch_size : Nat
  optimizer : String
  train_instance_count : Nat
  train_instance_type : String
  metric_definitions : List MetricRule
  job_name : String
  trial_name : String
  trial_component_display_name : String

/-- The job configuration dispatched by the optimizer-sweep iteration sweeping
`opt`, with trial timestamp `t` and job-name timestamp `tj`. -/
def cifarJob (srcDir opt : String) (t tj : Nat) : CifarJob :=
  ⟨"cifar10-tf", "cifar10_keras_main.py", srcDir, "1.15.2", "py37", 1, 256, opt, 1,
    "ml.m5.2xlarge", keras_metric_definition, cifarJobName tj, cifarTrialName opt t,
    "Training"⟩

/-- One iteration of the optimizer sweep: the name-map entry, the freshly
created Trial with the preprocessing tracker's component attached
(`cifar10_trial.add_trial_component(tracker.trial_component)`), and the
dispatched job. -/
def cifarIteration (expName srcDir comp : String) (clock jclock : Nat → Nat)
    (i : Nat) (opt : String) : (String × String) × TrialRec × CifarJob :=
  ((opt, cifarTrialName opt (clock i)),
    addTrialComponent ⟨cifarTrialName opt (clock i), expName, []⟩ comp,
    cifarJob srcDir opt (clock i) (jclock i))

/-- The whole optimizer sweep loop of the CIFAR-10 experiment notebook. -/
def cifarSweep (expName srcDir comp : String) (clock jclock : Nat → Nat) :
    List ((String × String) × TrialRec × CifarJob) :=
  optMethods.enum.map fun p => cifarIteration expName srcDir comp clock jclock p.1 p.2

/-- `opt_method_trial_name_map` after the sweep. -/
def opt_method_trial_name_map (expName srcDir comp : String) (clock jclock : Nat → Nat) :
    List (String × String) :=
  (cifarSweep expName srcDir comp clock jclock).map fun e => e.1

/-- The trials created by the optimizer sweep, in creation order. -/
def cifarCreatedTrials (expName srcDir comp : String) (clock jclock : Nat → Nat) :
    List TrialRec :=
  (cifarSweep expName srcDir comp clock jclock).map fun e => e.2.1

/-- The job configurations dispatched by the optimizer sweep. -/
def cifarDispatchedJobs (expName srcDir comp : String) (clock jclock : Nat → Nat) :
    List CifarJob :=
  (cifarSweep expName srcDir comp clock jclock).map fun e => e.2.2

/-- Two strings whose first `n` characters differ stay distinct under any
appended tails. -/
theorem append_ne_of_take_ne (P Q s t : String) (n : Nat)
    (hP : n ≤ P.data.length) (hQ : n ≤ Q.data.length)
    (hne : P.data.take n ≠ Q.data.take n) : P ++ s ≠ Q ++ t := by
  intro h
  apply hne
  have h2 := congrArg (fun x : String => x.data.take n) h
  simp only [String.data_append, List.take_append_eq_append_take,
    Nat.sub_eq_zero_of_le hP, Nat.sub_eq_zero_of_le hQ, List.take_zero,
    List.append_nil] at h2
  exact h2

/-- Trial names of distinct swept loss functions never collide. -/
theorem llTrialName_ne_sq_ab (t₁ t₂ : Nat) :
    llTrialName "squared_loss" t₁ ≠ llTrialName "absolute_loss" t₂ :=
  append_ne_of_take_ne _ _ _ _ 32 (by decide) (by decide) (by decide)

/-- Trial names of distinct swept loss functions never collide. -/
theorem llTrialName_ne_sq_hu (t₁ t₂ : Nat) :
    llTrialName "squared_loss" t₁ ≠ llTrialName "huber_loss" t₂ :=
  append_ne_of_take_ne _ _ _ _ 32 (by decide) (by decide) (by decide)

/-- Trial names of distinct swept loss functions never collide. -/
theorem llTrialName_ne_ab_hu (t₁ t₂ : Nat) :
    llTrialName "absolute_loss" t₁ ≠ llTrialName "huber_loss" t₂ :=
  append_ne_of_take_ne _ _ _ _ 32 (by decide) (by decide) (by decide)

/-- Trial names of distinct swept optimizers never collide. -/
theorem cifarTrialName_ne_ad_sg (t₁ t₂ : Nat) :
    cifarTrialName "adam" t₁ ≠ cifarTrialName "sgd" t₂ :=
  append_ne_of_take_ne _ _ _ _ 27 (by decide) (by decide) (by decide)

/-- Trial names of distinct swept optimizers never collide. -/
theorem cifarTrialName_ne_ad_rm (t₁ t₂ : Nat) :
    cifarTrialName "adam" t₁ ≠ cifarTrialName "rmsprop" t₂ :=
  append_ne_of_take_ne _ _ _ _ 27 (by decide) (by decide) (by decide)

/-- Trial names of distinct swept optimizers never collide. -/
theorem cifarTrialName_ne_sg_rm (t₁ t₂ : Nat) :
    cifarTrialName "sgd" t₁ ≠ cifarTrialName "rmsprop" t₂ :=
  append_ne_of_take_ne _ _ _ _ 27 (by decide) (by decide) (by decide)

/-- C10: across all iterations of a sweep the dispatched job configurations
agree on every non-swept field — container/framework, instance count and type,
output path, the remaining hyperparameters and the metric rule set — differing
only in the swept hyperparameter and in the trial identity attached via
experiment_config; each swept value gets exactly one freshly created trial,
recorded under its own name-map key, with pairwise-distinct trial names
whatever the clock reads (and, for the CIFAR sweep, with the preprocessing
component attached to every created trial). -/
theorem C10_sweep_frame (expName bucket srcDir comp : String)
    (clock clock' jclock : Nat → Nat) :
    loss_function_trial_name_map expName bucket clock =
      [("squared_loss", llTrialName "squared_loss" (clock 0)),
        ("absolute_loss", llTrialName "absolute_loss" (clock 1)),
        ("huber_loss", llTrialName "huber_loss" (clock 2))] ∧
    llCreatedTrials expName bucket clock =
      [⟨llTrialName "squared_loss" (clock 0), expName, []⟩,
        ⟨llTrialName "absolute_loss" (clock 1), expName, []⟩,
        ⟨llTrialName "huber_loss" (clock 2), expName, []⟩] ∧
    llDispatchedJobs expName bucket clock =
      [llJob bucket "squared_loss" (clock 0), llJob bucket "absolute_loss" (clock 1),
        llJob bucket "huber_loss" (clock 2)] ∧
    (∀ j ∈ llDispatchedJobs expName bucket clock,
      j.image = container ∧ j.instance_count = 1 ∧ j.instance_type = "ml.m4.xlarge" ∧
      j.output_path = llOutputPath bucket ∧ j.feature_dim = 13 ∧
      j.predictor_type = "regressor" ∧ j.mini_batch_size = 100 ∧
      j.trial_component_display_name = "Training") ∧
    (∀ t₁ t₂ : Nat,
      llTrialName "squared_loss" t₁ ≠ llTrialName "absolute_loss" t₂ ∧
      llTrialName "squared_loss" t₁ ≠ llTrialName "huber_loss" t₂ ∧
      llTrialName "absolute_loss" t₁ ≠ llTrialName "huber_loss" t₂) ∧
    opt_method_trial_name_map expName srcDir comp clock' jclock =
      [("adam", cifarTrialName "adam" (clock' 0)),
        ("sgd", cifarTrialName "sgd" (clock' 1)),
        ("rmsprop", cifarTrialName "rmsprop" (clock' 2))] ∧
    cifarCreatedTrials expName srcDir comp clock' jclock =
      [addTrialComponent ⟨cifarTrialName "adam" (clock' 0), expName, []⟩ comp,
        addTrialComponent ⟨cifarTrialName "sgd" (clock' 1), expName, []⟩ comp,
        addTrialComponent ⟨cifarTrialName "rmsprop" (clock' 2), expName, []⟩ comp] ∧
    (∀ tr ∈ cifarCreatedTrials expName srcDir comp clock' jclock,
      comp ∈ tr.trial_components) ∧
    cifarDispatchedJobs expName srcDir comp clock' jclock =
      [cifarJob srcDir "adam" (clock' 0) (jclock 0),
        cifarJob srcDir "sgd" (clock' 1) (jclock 1),
        cifarJob srcDir "rmsprop" (clock' 2) (jclock 2)] ∧
    (∀ j ∈ cifarDispatchedJobs expName srcDir comp clock' jclock,
      j.base_job_name = "cifar10-tf" ∧ j.entry_point = "cifar10_keras_main.py" ∧
      j.source_dir = srcDir ∧ j.framework_version = "1.15.2" ∧ j.py_version = "py37" ∧
      j.epochs = 1 ∧ j.batch_size = 256 ∧ j.train_instance_count = 1 ∧
      j.train_instance_type = "ml.m5.2xlarge" ∧
      j.metric_definitions = keras_metric_definition ∧
      j.trial_component_display_name = "Training") ∧
    (∀ t₁ t₂ : Nat,
      cifarTrialName "adam" t₁ ≠ cifarTrialName "sgd" t₂ ∧
      cifarTrialName "adam" t₁ ≠ cifarTrialName "rmsprop" t₂ ∧
      cifarTrialName "sgd" t₁ ≠ cifarTrialName "rmsprop" t₂) := by
  refine ⟨rfl, rfl, rfl, ?_, ?_, rfl, rfl, ?_, rfl, ?_, ?_⟩
  · intro j hj
    have hl : llDispatchedJobs expName bucket clock =
        [llJob bucket "squared_loss" (clock 0), llJob bucket "absolute_loss" (clock 1),
          llJob bucket "huber_loss" (clock 2)] := rfl
    rw [hl] at hj
    simp only [List.mem_cons, List.not_mem_nil, or_false] at hj
    rcases hj with rfl | rfl | rfl <;>
      exact ⟨rfl, rfl, rfl, rfl, rfl, rfl, rfl, rfl⟩
  · intro t₁ t₂
    exact ⟨llTrialName_ne_sq_ab t₁ t₂, llTrialName_ne_sq_hu t₁ t₂, llTrialName_ne_ab_hu t₁ t₂⟩
  · intro tr htr
    have hl : cifarCreatedTrials expName srcDir comp clock' jclock =
        [addTrialComponent ⟨cifarTrialName "adam" (clock' 0), expName, []⟩ comp,
          addTrialComponent ⟨cifarTrialName "sgd" (clock' 1), expName, []⟩ comp,
          addTrialComponent ⟨cifarTrialName "rmsprop" (clock' 2), expName, []⟩ comp] := rfl
    rw [hl] at htr
    simp only [List.mem_cons, List.not_mem_nil, or_false] at htr
    rcases htr with rfl | rfl | rfl <;> exact mem_addTrialComponent _ comp
  · intro j hj
    have hl : cifarDispatchedJobs expName srcDir comp clock' jclock =
        [cifarJob srcDir "adam" (clock' 0) (jclock 0),
          cifarJob srcDir "sgd" (clock' 1) (jclock 1),
          cifarJob srcDir "rmsprop" (clock' 2) (jclock 2)] := rfl
    rw [hl] at hj
    simp only [List.mem_cons, List.not_mem_nil, or_false] at hj
    rcases hj with rfl | rfl | rfl <;>
      exact ⟨rfl, rfl, rfl, rfl, rfl, rfl, rfl, rfl, rfl, rfl, rfl⟩
  · intro t₁ t₂
    exact ⟨cifarTrialName_ne_ad_sg t₁ t₂, cifarTrialName_ne_ad_rm t₁ t₂,
      cifarTrialName_ne_sg_rm t₁ t₂⟩

/-- Witness for C10 at concrete sweep inputs and clocks. -/
theorem C10_sweep_frame_witness :
    llJob "b" "squared_loss" 0 ∈ llDispatchedJobs "e" "b" (fun i => i) ∧
    ((llJob "b" "squared_loss" 0).instance_type = "ml.m4.xlarge" ∧
      (llJob "b" "squared_loss" 0).mini_batch_size = 100 ∧
      (llJob "b" "squared_loss" 0).output_path = llOutputPath "b") ∧
    cifarJob "s" "adam" 0 100 ∈
      cifarDispatchedJobs "e" "s" "Preprocessing" (fun i => i) (fun i => 100 + i) ∧
    (cifarJob "s" "adam" 0 100).metric_definitions = keras_metric_definition ∧
    addTrialComponent ⟨cifarTrialName "adam" 0, "e", []⟩ "Preprocessing" ∈
      cifarCreatedTrials "e" "s" "Preprocessing" (fun i => i) (fun i => 100 + i) ∧
    "Preprocessing" ∈
      (addTrialComponent ⟨cifarTrialName "adam" 0, "e", []⟩ "Preprocessing").trial_components ∧
    llTrialName "squared_loss" 5 ≠ llTrialName "absolute_loss" 5 ∧
    cifarTrialName "adam" 7 ≠ cifarTrialName "sgd" 9 := by
  have h := C10_sweep_frame "e" "b" "s" "Preprocessing" (fun i => i) (fun i => i)
    (fun i => 100 + i)
  have hm1 : llJob "b" "squared_loss" 0 ∈ llDispatchedJobs "e" "b" (fun i => i) := by
    rw [h.2.2.1]
    exact List.mem_cons_self _ _
  have hm2 : cifarJob "s" "adam" 0 100 ∈
      cifarDispatchedJobs "e" "s" "Preprocessing" (fun i => i) (fun i => 100 + i) := by
    rw [h.2.2.2.2.2.2.2.2.1]
    exact List.mem_cons_self _ _
  have hm3 : addTrialComponent ⟨cifarTrialName "adam" 0, "e", []⟩ "Preprocessing" ∈
      cifarCreatedTrials "e" "s" "Preprocessing" (fun i => i) (fun i => 100 + i) := by
    rw [h.2.2.2.2.2.2.1]
    exact List.mem_cons_self _ _
  have hf1 := h.2.2.2.1 _ hm1
  have hf2 := h.2.2.2.2.2.2.2.2.2.1 _ hm2
  have hc := h.2.2.2.2.2.2.2.1 _ hm3
  exact ⟨hm1, ⟨hf1.2.2.1, hf1.2.2.2.2.2.2.1, hf1.2.2.2.1⟩, hm2, hf2.2.2.2.2.2.2.2.2.2.1,
    hm3, hc, (h.2.2.2.2.1 5 5).1, (h.2.2.2.2.2.2.2.2.2.2 7 9).1⟩
